import Mathlib

/-!
Verification of the A.S.S. (Automated System Setup) orchestrator, a shallow
embedding of `src/main.rs`.

The program is a sequential pipeline of provisioning steps.  Every external
observation the program can make (a `which` lookup on PATH, a filesystem
existence test, reading a file, the exit status of a spawned command, the
`HOME` environment variable, one line of standard input) is answered by a
`World` oracle.  Each step is translated into a Lean function from the parsed
`Config` and a `World` to a `StepResult` recording, in order, the
non-mutating probes it performed, the mutating commands it spawned via
`.status()`, the lines it printed to stdout and stderr, and its outcome
(normal return, `process::exit(code)`, or a Rust panic from `.expect`).
Mutating commands are not re-read by the program within a run, so the oracle
is constant during one run; the writes the program itself performs to
temporary files are modelled as the `stdinData` those files feed into the
commands that consume them.
-/

namespace ASS

/-- Rust `struct Config`: the run configuration parsed from argv. -/
structure Config where
  dry_run : Bool
  verbose : Bool
deriving DecidableEq

/-- One external command invocation: `Command::new(program).args(args)` with
an optional `current_dir` and optional stdin redirection (represented by the
bytes fed to the child process). -/
structure Cmd where
  program : String
  args : List String
  cwd : Option String := none
  stdinData : Option String := none
deriving DecidableEq

/-- A non-mutating observation of the system: a `which` PATH lookup executed
with `.output()`, a `Path::new(..).exists()` test, or an
`fs::read_to_string`. -/
inductive Probe where
  | which (tool : String)
  | pathCheck (path : String)
  | fileRead (path : String)
deriving DecidableEq

/-- The oracle answering every external observation of one run.
`whichOut tool` is the stdout of `which tool` (empty when the tool is
absent), `cmdSuccess` is the exit status of a spawned mutating command,
`home` is the `HOME` environment variable, and `stdinLine` is the line
`read_line` would return at the confirmation prompt. -/
structure World where
  whichOut : String → String
  pathExists : String → Bool
  fileContents : String → Option String
  cmdSuccess : Cmd → Bool
  home : Option String
  stdinLine : String

/-- How a step (or the whole process) finished: normal return,
`std::process::exit(code)`, or a Rust panic (`.expect` / `.unwrap`). -/
inductive Outcome where
  | ok
  | exited (code : Nat)
  | panicked
deriving DecidableEq

/-- The observable trace of one step: probes and mutating commands in
execution order, printed lines, and the outcome. -/
structure StepResult where
  probes : List Probe := []
  actions : List Cmd := []
  stdout : List String := []
  stderr : List String := []
  out : Outcome := .ok
deriving DecidableEq

/-- Sequential composition: Rust control flow runs the second fragment only
when the first neither exited nor panicked. -/
def StepResult.andThen (r s : StepResult) : StepResult :=
  match r.out with
  | .ok => { probes := r.probes ++ s.probes, actions := r.actions ++ s.actions,
             stdout := r.stdout ++ s.stdout, stderr := r.stderr ++ s.stderr,
             out := s.out }
  | _ => r

/-- One `Command::new(..).status()` call as the source writes it: optional
verbosity-gated lines printed before spawning, the command, and the
`eprintln!` message used when the exit status is unsuccessful. -/
structure ActSpec where
  pre : List String := []
  cmd : Cmd
  err : String

/-- Run a list of `.status()` invocations in order; on the first unsuccessful
status print the error line and `process::exit(1)`, exactly as every
non-best-effort step in the source does. -/
def runActs (w : World) : List ActSpec → StepResult
  | [] => {}
  | s :: rest =>
    if w.cmdSuccess s.cmd then
      StepResult.andThen { stdout := s.pre, actions := [s.cmd] } (runActs w rest)
    else
      { stdout := s.pre, actions := [s.cmd], stderr := [s.err], out := .exited 1 }

/-- Verbosity gate: the lines printed only under `config.verbose`. -/
def vb (c : Config) (l : List String) : List String :=
  if c.verbose then l else []

/-! Rust string primitives, implemented structurally so that the kernel can
evaluate them on concrete inputs.  They mirror `str::trim`,
`str::to_lowercase`, `str::lines` (as raw `split('\n')`; the final empty
piece is discarded by the callers via their emptiness filters),
`str::contains`, `str::starts_with(char)` and `[..].join(sep)`. -/

def trimList (l : List Char) : List Char :=
  ((l.dropWhile Char.isWhitespace).reverse.dropWhile Char.isWhitespace).reverse

def rustTrim (s : String) : String := ⟨trimList s.data⟩

def rustToLower (s : String) : String := ⟨s.data.map Char.toLower⟩

def splitCh (sep : Char) : List Char → List (List Char)
  | [] => [[]]
  | c :: rest =>
    let r := splitCh sep rest
    if c = sep then [] :: r
    else
      match r with
      | [] => [[c]]
      | h :: t => (c :: h) :: t

def rustSplitLines (s : String) : List String :=
  (splitCh ('\n') s.data).map String.mk

def listIsPrefixOf : List Char → List Char → Bool
  | [], _ => true
  | _ :: _, [] => false
  | a :: as_, b :: bs => a = b && listIsPrefixOf as_ bs

def listIsInfixOf (pat : List Char) : List Char → Bool
  | [] => listIsPrefixOf pat []
  | c :: rest => listIsPrefixOf pat (c :: rest) || listIsInfixOf pat rest

def strContains (hay pat : String) : Bool := listIsInfixOf pat.data hay.data

def rustStartsWith (s : String) (c : Char) : Bool :=
  match s.data with
  | [] => false
  | a :: _ => a = c

def joinSep (sep : String) : List String → String
  | [] => ""
  | [x] => x
  | x :: rest => x ++ sep ++ joinSep sep rest

/-- `fn print_help` — the usage text, one entry per `println!`. -/
def helpLines : List String :=
  ["A.S.S. - Automated System Setup",
   "",
   "USAGE:",
   "    ass [OPTIONS]",
   "",
   "OPTIONS:",
   "    --help, -h       Show this help message",
   "    --dry-run        Show what would be done without executing",
   "    --verbose, -v    Show detailed output",
   "",
   "EXAMPLES:",
   "    ass                    # Run the setup",
   "    ass --dry-run          # Test without making changes",
   "    ass --verbose          # Run with detailed output"]

/-- Result of `fn parse_args`: either a configuration, or an early
`process::exit` (help display or unknown option) with the lines printed. -/
inductive ParseResult where
  | done (c : Config)
  | exit (code : Nat) (stdout : List String) (stderr : List String)
deriving DecidableEq

/-- The argument loop of `fn parse_args` over `args.iter().skip(1)`. -/
def parse_loop : Config → List String → ParseResult
  | c, [] => .done c
  | c, a :: rest =>
    if a = "--help" ∨ a = "-h" then .exit 0 helpLines []
    else if a = "--dry-run" then parse_loop { c with dry_run := true } rest
    else if a = "--verbose" ∨ a = "-v" then parse_loop { c with verbose := true } rest
    else .exit 1 [] ["Unknown option: " ++ a, "Use --help for usage information"]

/-- `fn parse_args` applied to the full `env::args()` vector (the first
element is the program name and is skipped). -/
def parse_args (argv : List String) : ParseResult :=
  parse_loop { dry_run := false, verbose := false } (argv.drop 1)

/-- `fn check_deps`: probe git, curl, sudo and systemctl via `which`;
missing sudo or systemctl is an immediate `exit(1)`, while missing git or
curl are collected and installed through `sudo pacman -S --noconfirm`. -/
def check_deps (c : Config) (w : World) : StepResult :=
  StepResult.andThen { stdout := vb c ["Checking for required dependencies..."] }
  (if c.dry_run then
    { stdout := ["[DRY RUN] Would check for: git, curl, sudo, systemctl"] }
  else
    let gitOut := w.whichOut ("git")
    let curlOut := w.whichOut ("curl")
    let missing_deps :=
      (if gitOut.isEmpty then ["git"] else []) ++
      (if curlOut.isEmpty then ["curl"] else [])
    StepResult.andThen
      { probes := [Probe.which ("git"), Probe.which ("curl")],
        stdout :=
          (if gitOut.isEmpty then [] else vb c ["✓ Found git: " ++ rustTrim gitOut]) ++
          (if curlOut.isEmpty then [] else vb c ["✓ Found curl: " ++ rustTrim curlOut]) }
      (StepResult.andThen { probes := [Probe.which ("sudo")] }
       (if (w.whichOut ("sudo")).isEmpty then
         { stderr := ["ERROR: sudo is required but not found"], out := .exited 1 }
       else
         StepResult.andThen
           { stdout := vb c ["✓ Found sudo: " ++ rustTrim (w.whichOut ("sudo"))] }
           (StepResult.andThen { probes := [Probe.which ("systemctl")] }
            (if (w.whichOut ("systemctl")).isEmpty then
              { stderr := ["ERROR: systemctl is required but not found (are you on systemd?)"],
                out := .exited 1 }
            else
              StepResult.andThen
                { stdout := vb c ["✓ Found systemctl: " ++ rustTrim (w.whichOut ("systemctl"))] }
                (if missing_deps.isEmpty then
                  { stdout := vb c ["✓ All required dependencies are installed"] }
                else
                  StepResult.andThen
                    { stdout := ["Installing missing dependencies: " ++ joinSep ", " missing_deps] }
                    (StepResult.andThen
                      (runActs w
                        [{ cmd := { program := "sudo",
                                    args := "pacman" :: "-S" :: "--noconfirm" :: missing_deps },
                           err := "Failed to install dependencies" }])
                      { stdout := ["✓ Dependencies installed successfully"] })))))))

/-- `fn check_connection`: sleep (unobservable), prompt, read a line, and
`exit(0)` when the trimmed lowercased answer is "n" or "no". -/
def check_connection (c : Config) (w : World) : StepResult :=
  StepResult.andThen { stdout := vb c ["Checking network connection..."] }
  (if c.dry_run then
    { stdout := ["[DRY RUN] Would wait 3 seconds and prompt for connection"] }
  else
    let input := rustToLower (rustTrim w.stdinLine)
    StepResult.andThen
      { stdout := ["Checking network connection...",
                   "⚠ Could not verify connection (timeout after 3s)",
                   "Continue anyway? [Y/n]: "] }
      (if input = "n" ∨ input = "no" then
        { stdout := ["Aborted."], out := .exited 0 }
      else {}))

/-- `fn install_paru`: probe `which paru`; when absent, clone the AUR
repository, install build dependencies, select the stable toolchain, and
`makepkg -si` inside `./paru`. -/
def install_paru (c : Config) (w : World) : StepResult :=
  StepResult.andThen { stdout := ["Installing paru..."] }
  (if c.dry_run then
    { stdout := ["[DRY RUN] Would check if paru is installed, if not:",
                 "  1. git clone https://aur.archlinux.org/paru.git",
                 "  2. sudo pacman -Syyu --noconfirm rustup bat devtools",
                 "  3. rustup default stable",
                 "  4. cd paru && makepkg -si --noconfirm"] }
  else
    StepResult.andThen { probes := [Probe.which ("paru")] }
    (if (w.whichOut ("paru")).isEmpty then
      StepResult.andThen
        (runActs w
          [{ pre := vb c ["Cloning paru AUR repository..."],
             cmd := { program := "git", args := ["clone", "https://aur.archlinux.org/paru.git"] },
             err := "Failed to clone paru repository" },
           { pre := vb c ["Installing dependencies (rustup, bat, devtools)..."],
             cmd := { program := "sudo",
                      args := ["pacman", "-Syyu", "--noconfirm", "rustup", "bat", "devtools"] },
             err := "Failed to install dependencies" },
           { pre := vb c ["Setting up Rust stable toolchain..."],
             cmd := { program := "rustup", args := ["default", "stable"] },
             err := "Failed to setup rust stable" },
           { pre := vb c ["Building and installing paru..."],
             cmd := { program := "makepkg", args := ["-si", "--noconfirm"], cwd := some ("./paru") },
             err := "Failed to build/install paru" }])
        { stdout := ["✓ Paru installed successfully!"] }
    else
      { stdout := [if c.verbose then
                     "✓ Paru is already installed: " ++ rustTrim (w.whichOut ("paru"))
                   else "✓ Paru already installed, skipping installation"] }))

/-- The two lines `fn setup_chaotic_aur` writes to its temporary file and
pipes into `sudo tee -a /etc/pacman.conf` (each `writeln!` appends a
newline). -/
def chaoticConfText : String :=
  "\n[chaotic-aur]\nInclude = /etc/pacman.d/chaotic-mirrorlist\n"

/-- `fn setup_chaotic_aur`: probe `/etc/pacman.conf` for the
`[chaotic-aur]` marker; when absent, import and sign the key, install the
keyring and mirrorlist packages, append the repository block, and update. -/
def setup_chaotic_aur (c : Config) (w : World) : StepResult :=
  StepResult.andThen { stdout := ["Setting up Chaotic AUR..."] }
  (if c.dry_run then
    { stdout := ["[DRY RUN] Would execute:",
                 "  1. Check if Chaotic AUR is already configured",
                 "  2. sudo pacman-key --recv-key 3056513887B78AEB --keyserver keyserver.ubuntu.com",
                 "  3. sudo pacman-key --lsign-key 3056513887B78AEB",
                 "  4. sudo pacman -U --noconfirm \x27https://cdn-mirror.chaotic.cx/chaotic-aur/chaotic-keyring.pkg.tar.zst\x27",
                 "  5. sudo pacman -U --noconfirm \x27https://cdn-mirror.chaotic.cx/chaotic-aur/chaotic-mirrorlist.pkg.tar.zst\x27",
                 "  6. Append chaotic-aur config to /etc/pacman.conf",
                 "  7. sudo pacman -Syu --noconfirm"] }
  else
    let pacman_conf := (w.fileContents ("/etc/pacman.conf")).getD ""
    StepResult.andThen { probes := [Probe.fileRead ("/etc/pacman.conf")] }
    (if strContains pacman_conf "[chaotic-aur]" then
      { stdout := [if c.verbose then "✓ Chaotic AUR already configured"
                   else "✓ Chaotic AUR already configured, skipping setup"] }
    else
      StepResult.andThen
        (runActs w
          [{ pre := vb c ["Receiving Chaotic AUR GPG key..."],
             cmd := { program := "sudo",
                      args := ["pacman-key", "--recv-key", "3056513887B78AEB",
                               "--keyserver", "keyserver.ubuntu.com"] },
             err := "Failed to receive Chaotic AUR GPG key" },
           { pre := vb c ["Signing Chaotic AUR GPG key..."],
             cmd := { program := "sudo",
                      args := ["pacman-key", "--lsign-key", "3056513887B78AEB"] },
             err := "Failed to sign Chaotic AUR GPG key" },
           { pre := vb c ["Installing chaotic-keyring..."],
             cmd := { program := "sudo",
                      args := ["pacman", "-U", "--noconfirm",
                               "https://cdn-mirror.chaotic.cx/chaotic-aur/chaotic-keyring.pkg.tar.zst"] },
             err := "Failed to install chaotic-keyring" },
           { pre := vb c ["Installing chaotic-mirrorlist..."],
             cmd := { program := "sudo",
                      args := ["pacman", "-U", "--noconfirm",
                               "https://cdn-mirror.chaotic.cx/chaotic-aur/chaotic-mirrorlist.pkg.tar.zst"] },
             err := "Failed to install chaotic-mirrorlist" },
           { pre := vb c ["Adding Chaotic AUR to pacman.conf..."],
             cmd := { program := "sudo", args := ["tee", "-a", "/etc/pacman.conf"],
                      stdinData := some chaoticConfText },
             err := "Failed to update pacman.conf" },
           { pre := vb c ["Updating system with Chaotic AUR..."],
             cmd := { program := "sudo", args := ["pacman", "-Syu", "--noconfirm"] },
             err := "Failed to update system" }])
        { stdout := ["✓ Chaotic AUR setup complete!"] }))

/-- The repository cloned by `fn setup_dotfiles`. -/
def dotfilesURL : String := "https://github.com/jeebuscrossaint/dotfiles.git"

/-- The command installing the filtered package list in `fn setup_dotfiles`;
its stdin is the temporary filtered list. -/
def paruInstallCmd (dotfiles_path : String) (filtered : List String) : Cmd :=
  { program := "paru",
    args := ["-S", "--needed", "--noconfirm", "--skipreview", "--batchinstall", "-"],
    cwd := some dotfiles_path,
    stdinData := some (joinSep "\n" filtered) }

/-- `fn setup_dotfiles`: clone `~/dotfiles` unless it already exists, then
always read `archpkglist.txt`, filter out blanks, comments and
`paru-debug`, and feed the filtered list to `paru -S` on stdin.  Note the
package installation is not guarded by the directory probe. -/
def setup_dotfiles (c : Config) (w : World) : StepResult :=
  StepResult.andThen { stdout := ["Setting up dotfiles..."] }
  (if c.dry_run then
    { stdout := ["[DRY RUN] Would execute:",
                 "  1. Check if ~/dotfiles exists",
                 "  2. cd ~",
                 "  3. git clone --depth=1 https://github.com/jeebuscrossaint/dotfiles.git",
                 "  4. cd dotfiles",
                 "  5. Filter out invalid packages and run paru -S --needed --noconfirm --skipreview --batchinstall"] }
  else
    match w.home with
    | none => { out := .panicked }
    | some home =>
      let dotfiles_path := home ++ "/dotfiles"
      StepResult.andThen { probes := [Probe.pathCheck dotfiles_path] }
      (StepResult.andThen
        (if w.pathExists dotfiles_path then
          { stdout := [if c.verbose then
                         "✓ Dotfiles directory already exists at " ++ dotfiles_path
                       else "✓ Dotfiles already cloned, skipping clone"] }
        else
          runActs w
            [{ pre := vb c ["Cloning dotfiles repository to " ++ home ++ " (shallow clone)..."],
               cmd := { program := "git", args := ["clone", "--depth=1", dotfilesURL],
                        cwd := some home },
               err := "Failed to clone dotfiles repository" }])
        (StepResult.andThen { stdout := vb c ["Installing packages from archpkglist.txt..."] }
         (let pkglist_path := dotfiles_path ++ "/archpkglist.txt"
          match w.fileContents pkglist_path with
          | none => { probes := [Probe.fileRead pkglist_path], out := .panicked }
          | some content =>
            let filtered :=
              (((rustSplitLines content).map rustTrim).filter
                (fun line => !line.isEmpty && !rustStartsWith line ('#'))).filter
                (fun line => line != "paru-debug")
            StepResult.andThen
              { probes := [Probe.fileRead pkglist_path],
                stdout := vb c ["Installing " ++ toString filtered.length ++
                                " packages (filtered out invalid packages)"] }
              (StepResult.andThen
                (runActs w
                  [{ cmd := paruInstallCmd dotfiles_path filtered,
                     err := "Failed to install packages from archpkglist.txt" }])
                { stdout := ["✓ Dotfiles setup complete!"] })))))

/-- The `sudo pacman -S --noconfirm stow` invocation of
`fn deploy_dotfiles`; it runs on every non-dry run, unconditionally. -/
def stowInstallCmd : Cmd :=
  { program := "sudo", args := ["pacman", "-S", "--noconfirm", "stow"] }

/-- `fn deploy_dotfiles`: install GNU Stow and create `~/.config`.  This
step has no probe and always performs both mutating commands. -/
def deploy_dotfiles (c : Config) (w : World) : StepResult :=
  StepResult.andThen { stdout := ["Deploying dotfiles with GNU Stow..."] }
  (if c.dry_run then
    { stdout := ["[DRY RUN] Would execute:",
                 "  1. sudo pacman -S --noconfirm stow",
                 "  2. mkdir -p ~/.config"] }
  else
    StepResult.andThen
      (runActs w
        [{ pre := vb c ["Installing GNU Stow..."],
           cmd := stowInstallCmd,
           err := "Failed to install stow" }])
      (match w.home with
       | none => { out := .panicked }
       | some home =>
         StepResult.andThen
           (runActs w
             [{ pre := vb c ["Creating ~/.config directory..."],
                cmd := { program := "mkdir", args := ["-p", home ++ "/.config"] },
                err := "Failed to create .config directory" }])
           { stdout := ["✓ Stow installed and directories prepared!"] }))

/-- `fn stow_custom_configs`: remove the generated `~/.config/home-manager`
and `~/.config/nix` when present, then stow the custom packages.  No
satisfied-skip: the stow commands always run. -/
def stow_custom_configs (c : Config) (w : World) : StepResult :=
  StepResult.andThen { stdout := ["Deploying custom dotfiles with GNU Stow..."] }
  (if c.dry_run then
    { stdout := ["[DRY RUN] Would execute:",
                 "  1. Remove default ~/.config/home-manager",
                 "  2. Remove default ~/.config/nix",
                 "  3. cd ~/dotfiles && stow home-manager",
                 "  4. cd ~/dotfiles && stow nix"] }
  else
    match w.home with
    | none => { out := .panicked }
    | some home =>
      let dotfiles_path := home ++ "/dotfiles"
      let hm_config_path := home ++ "/.config/home-manager"
      let nix_config_path := home ++ "/.config/nix"
      StepResult.andThen { probes := [Probe.pathCheck hm_config_path] }
      (StepResult.andThen
        (if w.pathExists hm_config_path then
          runActs w
            [{ pre := vb c ["Removing default home-manager config..."],
               cmd := { program := "rm", args := ["-rf", hm_config_path] },
               err := "Failed to remove default home-manager config" }]
        else {})
        (StepResult.andThen { probes := [Probe.pathCheck nix_config_path] }
         (StepResult.andThen
           (if w.pathExists nix_config_path then
             runActs w
               [{ pre := vb c ["Removing default nix config..."],
                  cmd := { program := "rm", args := ["-rf", nix_config_path] },
                  err := "Failed to remove default nix config" }]
            else {})
           (StepResult.andThen
             (runActs w
               [{ pre := vb c ["Stowing home-manager..."],
                  cmd := { program := "stow", args := ["home-manager"], cwd := some dotfiles_path },
                  err := "Failed to stow home-manager" },
                { pre := vb c ["Stowing nix..."],
                  cmd := { program := "stow", args := ["nix"], cwd := some dotfiles_path },
                  err := "Failed to stow nix" }])
             { stdout := ["✓ Custom dotfiles deployed successfully!"] })))))

/-- `fn install_nix`: probe `which nix`; when absent, download the
installer with curl, make it executable, and run it in daemon mode. -/
def install_nix (c : Config) (w : World) : StepResult :=
  StepResult.andThen { stdout := ["Installing Nix package manager..."] }
  (if c.dry_run then
    { stdout := ["[DRY RUN] Would execute:",
                 "  1. Check if nix is already installed",
                 "  2. cd ~",
                 "  3. curl --proto \x27=https\x27 --tlsv1.2 -sSfL https://nixos.org/nix/install -o nix-install.sh",
                 "  4. chmod +x nix-install.sh",
                 "  5. sh ./nix-install.sh --daemon"] }
  else
    StepResult.andThen { probes := [Probe.which ("nix")] }
    (if (w.whichOut ("nix")).isEmpty then
      match w.home with
      | none => { out := .panicked }
      | some home =>
        StepResult.andThen
          (runActs w
            [{ pre := vb c ["Downloading Nix installer to " ++ home ++ "..."],
               cmd := { program := "curl",
                        args := ["--proto", "=https", "--tlsv1.2", "-sSfL",
                                 "https://nixos.org/nix/install", "-o", "nix-install.sh"],
                        cwd := some home },
               err := "Failed to download Nix installer" },
             { pre := vb c ["Making installer executable..."],
               cmd := { program := "chmod", args := ["+x", home ++ "/nix-install.sh"] },
               err := "Failed to make Nix installer executable" },
             { pre := vb c ["Running Nix installer (daemon mode)..."],
               cmd := { program := "sh", args := ["./nix-install.sh", "--daemon"],
                        cwd := some home },
               err := "Failed to install Nix" }])
          { stdout := ["✓ Nix installed successfully!"] }
    else
      { stdout := [if c.verbose then
                     "✓ Nix is already installed: " ++ rustTrim (w.whichOut ("nix"))
                   else "✓ Nix already installed, skipping installation"] }))

/-- `fn setup_home_manager`: enable the nix daemon, add and update the
home-manager channel, and run the installer.  No probe guards this step. -/
def setup_home_manager (c : Config) (w : World) : StepResult :=
  StepResult.andThen { stdout := ["Setting up Home Manager..."] }
  (if c.dry_run then
    { stdout := ["[DRY RUN] Would execute:",
                 "  1. sudo systemctl enable --now nix-daemon.service",
                 "  2. nix-channel --add https://github.com/nix-community/home-manager/archive/master.tar.gz home-manager",
                 "  3. nix-channel --update",
                 "  4. nix-shell \x27<home-manager>\x27 -A install"] }
  else
    StepResult.andThen
      (runActs w
        [{ pre := vb c ["Enabling Nix daemon service..."],
           cmd := { program := "sudo",
                    args := ["systemctl", "enable", "--now", "nix-daemon.service"] },
           err := "Failed to enable Nix daemon service" },
         { pre := vb c ["Adding home-manager channel..."],
           cmd := { program := "nix-channel",
                    args := ["--add",
                             "https://github.com/nix-community/home-manager/archive/master.tar.gz",
                             "home-manager"] },
           err := "Failed to add home-manager channel" },
         { pre := vb c ["Updating nix channels..."],
           cmd := { program := "nix-channel", args := ["--update"] },
           err := "Failed to update nix channels" },
         { pre := vb c ["Installing home-manager..."],
           cmd := { program := "nix-shell", args := ["<home-manager>", "-A", "install"] },
           err := "Failed to install home-manager" }])
      { stdout := ["✓ Home Manager setup complete!"] })

/-- The sixteen wallpaper repositories of `fn clone_wallpapers`. -/
def wallpaperRepos : List String :=
  ["https://github.com/rann01/IRIX-tiles",
   "https://github.com/dharmx/walls",
   "https://github.com/wallace-aph/tiles-and-such",
   "https://github.com/tile-anon/tiles",
   "https://github.com/whoisYoges/lwalpapers",
   "https://github.com/D3Ext/aesthetic-wallpapers",
   "https://github.com/peteroupc/classic-wallpaper",
   "https://github.com/dixiedream/wallpapers",
   "https://github.com/mylinuxforwork/wallpaper",
   "https://github.com/makccr/wallpapers",
   "https://github.com/Axenide/Wallpapers",
   "https://github.com/l3ct3r/wallpapers",
   "https://github.com/dmighty007/WallPapers",
   "https://github.com/DenverCoder1/minimalistic-wallpaper-collection",
   "https://github.com/BitterSweetcandyshop/wallpapers",
   "https://github.com/linuxdotexe/nordic-wallpapers"]

/-- The directory name a repository URL clones into:
`repo.split('/').last().unwrap_or("")`. -/
def repoName (repo : String) : String :=
  ((splitCh ('/') repo.data).map String.mk).getLastD ""

/-- The best-effort clone command of one wallpaper repository. -/
def wallCloneCmd (home repo : String) : Cmd :=
  { program := "git", args := ["clone", "--depth=1", repo], cwd := some home }

/-- One iteration of the clone loop in `fn clone_wallpapers`: skip when the
target directory exists, otherwise clone; a failed clone only logs a
warning and never aborts. -/
def clone_one (c : Config) (w : World) (home repo : String) : StepResult :=
  let repo_path := home ++ "/" ++ repoName repo
  StepResult.andThen { probes := [Probe.pathCheck repo_path] }
  (if w.pathExists repo_path then
    { stdout := vb c ["✓ " ++ repoName repo ++ " already exists, skipping"] }
  else
    StepResult.andThen { stdout := vb c ["Cloning " ++ repo ++ "..."] }
    (if w.cmdSuccess (wallCloneCmd home repo) then
      { actions := [wallCloneCmd home repo], stdout := vb c ["✓ Cloned " ++ repo] }
    else
      { actions := [wallCloneCmd home repo],
        stderr := ["⚠ Warning: Failed to clone " ++ repo] }))

/-- The `for repo in &wallpaper_repos` loop. -/
def clone_loop (c : Config) (w : World) (home : String) : List String → StepResult
  | [] => {}
  | repo :: rest => StepResult.andThen (clone_one c w home repo) (clone_loop c w home rest)

/-- `fn clone_wallpapers`: best-effort cloning of all wallpaper
repositories; the step always reports success. -/
def clone_wallpapers (c : Config) (w : World) : StepResult :=
  StepResult.andThen { stdout := ["Cloning wallpaper repositories..."] }
  (if c.dry_run then
    { stdout := ("[DRY RUN] Would clone " ++ toString wallpaperRepos.length ++
                 " wallpaper repositories to ~/ with --depth=1")
                :: wallpaperRepos.map (fun repo => "  - " ++ repo) }
  else
    match w.home with
    | none => { out := .panicked }
    | some home =>
      StepResult.andThen (clone_loop c w home wallpaperRepos)
        { stdout := ["✓ Wallpaper repositories cloned!"] })

/-- `fn rebuild_home_manager`: run `home-manager switch -b backup`.  No
probe guards this step. -/
def rebuild_home_manager (c : Config) (w : World) : StepResult :=
  StepResult.andThen { stdout := ["Rebuilding Home Manager configuration..."] }
  (if c.dry_run then
    { stdout := ["[DRY RUN] Would execute:",
                 "  home-manager switch -b backup"] }
  else
    StepResult.andThen
      (runActs w
        [{ pre := vb c ["Running home-manager switch..."],
           cmd := { program := "home-manager", args := ["switch", "-b", "backup"] },
           err := "Failed to rebuild home-manager configuration" }])
      { stdout := ["✓ Home Manager configuration rebuilt successfully!"] })

/-- The steps of `fn main` in their declared order.  `check_connection` is
defined in the source but never invoked by `main`. -/
def pipeline : List (Config → World → StepResult) :=
  [check_deps, install_paru, setup_chaotic_aur, setup_dotfiles, deploy_dotfiles,
   install_nix, setup_home_manager, stow_custom_configs, clone_wallpapers,
   rebuild_home_manager]

/-- Execute a list of steps in order, stopping at the first one that exits
or panics (a `process::exit` inside a step terminates the whole process). -/
def runSteps (steps : List (Config → World → StepResult)) (c : Config) (w : World) :
    StepResult :=
  steps.foldl (fun r f => r.andThen (f c w)) {}

/-- The observable result of a whole process run: prints, probes, mutating
commands, and the exit code (`none` when the process panicked). -/
structure ProgResult where
  probes : List Probe
  actions : List Cmd
  stdout : List String
  stderr : List String
  exit : Option Nat
deriving DecidableEq

/-- `fn main`: parse argv, print the banner, run the pipeline, and report.
A step that called `process::exit(code)` makes the process exit with that
code; a full pipeline pass exits 0. -/
def main (argv : List String) (w : World) : ProgResult :=
  match parse_args argv with
  | .exit code sout serr =>
    { probes := [], actions := [], stdout := sout, stderr := serr, exit := some code }
  | .done c =>
    let banner :=
      (if c.dry_run then ["=== DRY RUN MODE ===", "No actual changes will be made", ""]
       else []) ++ ["A.S.S. - Arch Setup Script"]
    let r := runSteps pipeline c w
    match r.out with
    | .ok =>
      { probes := r.probes, actions := r.actions,
        stdout := banner ++ r.stdout ++
          (if c.dry_run then ["", "=== DRY RUN COMPLETE ==="]
           else ["", "✓ Setup complete! Your system is ready to use!"]),
        stderr := r.stderr, exit := some 0 }
    | .exited n =>
      { probes := r.probes, actions := r.actions, stdout := banner ++ r.stdout,
        stderr := r.stderr, exit := some n }
    | .panicked =>
      { probes := r.probes, actions := r.actions, stdout := banner ++ r.stdout,
        stderr := r.stderr, exit := none }

/-! Predicates used to state the verified properties, and the concrete
worlds used for evaluations. -/

/-- A command is best-effort exactly when it is one of the wallpaper clone
invocations — the sole exception the source makes to fatal first failure. -/
def bestEffort (a : Cmd) : Bool :=
  a.program == "git" && wallpaperRepos.any (fun repo => a.args == ["clone", "--depth=1", repo])

/-- A run fragment that performed no probes, executed no mutating commands,
and returned normally. -/
def Inert (r : StepResult) : Prop :=
  r.probes = [] ∧ r.actions = [] ∧ r.out = .ok

/-- Fatal propagation invariant: any executed non-best-effort command whose
exit status is unsuccessful forces the fragment to end in `exit(1)`. -/
def Good (w : World) (r : StepResult) : Prop :=
  ∀ a ∈ r.actions, bestEffort a = false → w.cmdSuccess a = false → r.out = .exited 1

/-- A fragment that, whenever it returns normally, has executed the
unconditional `sudo pacman -S --noconfirm stow` command of
`fn deploy_dotfiles`. -/
def HasStow (r : StepResult) : Prop := r.out = .ok → stowInstallCmd ∈ r.actions

/-- A fully provisioned world: every tool on PATH, every directory present,
the pacman.conf marker in place, the package list readable, and every
command succeeding.  A first pipeline run in this world fully succeeds, and
a second run starts from the identical state. -/
def wSat : World :=
  { whichOut := fun _ => "/usr/bin/tool",
    pathExists := fun _ => true,
    fileContents := fun p =>
      if p = "/etc/pacman.conf" then
        some ("[options]\n[chaotic-aur]\nInclude = /etc/pacman.d/chaotic-mirrorlist\n")
      else if p = "/home/u/dotfiles/archpkglist.txt" then some ("git\nvim\nparu-debug\n")
      else none,
    cmdSuccess := fun _ => true,
    home := some ("/home/u"),
    stdinLine := "" }

/-- A world where `which git` finds nothing but curl, sudo and systemctl are
present and every command succeeds. -/
def wGitMissing : World :=
  { whichOut := fun t => if t = "git" then "" else "/usr/bin/" ++ t,
    pathExists := fun _ => false,
    fileContents := fun _ => none,
    cmdSuccess := fun _ => true,
    home := some ("/home/u"),
    stdinLine := "" }

/-- A world where `which sudo` finds nothing. -/
def wNoSudo : World :=
  { wGitMissing with whichOut := fun t => if t = "sudo" then "" else "/usr/bin/" ++ t }

/-- A world where `which systemctl` finds nothing. -/
def wNoSystemd : World :=
  { wGitMissing with whichOut := fun t => if t = "systemctl" then "" else "/usr/bin/" ++ t }

/-- A world where `which curl` finds nothing but git, sudo and systemctl are
present and every command succeeds. -/
def wCurlMissing : World :=
  { wGitMissing with whichOut := fun t => if t = "curl" then "" else "/usr/bin/" ++ t }

/-- The git-missing world where the dependency installation command itself
fails. -/
def wDepsFail : World :=
  { wGitMissing with cmdSuccess := fun _ => false }

/-- The `missing_deps` vector `fn check_deps` accumulates: git and/or curl,
in probe order, when their `which` lookup returns nothing. -/
def missingDeps (w : World) : List String :=
  (if (w.whichOut ("git")).isEmpty then ["git"] else []) ++
  (if (w.whichOut ("curl")).isEmpty then ["curl"] else [])

/-- The `sudo pacman -S --noconfirm <missing_deps>` command `fn check_deps`
runs when `missing_deps` is non-empty. -/
def depsInstallCmd (w : World) : Cmd :=
  { program := "sudo", args := "pacman" :: "-S" :: "--noconfirm" :: missingDeps w }

/-- The fully provisioned world except that the unconditional
`sudo pacman -S --noconfirm stow` command fails. -/
def wStowFail : World :=
  { wSat with cmdSuccess := fun a => !(a == stowInstallCmd) }

/-- A world where no wallpaper repository directory exists yet and exactly
the third clone fails. -/
def wCloneFail : World :=
  { whichOut := fun _ => "/usr/bin/tool",
    pathExists := fun _ => false,
    fileContents := fun _ => none,
    cmdSuccess := fun a => !(a == wallCloneCmd "/h" "https://github.com/wallace-aph/tiles-and-such"),
    home := some ("/h"),
    stdinLine := "" }

/-- The fully provisioned world with the user typing `N` (plus the newline
`read_line` keeps) at the confirmation prompt. -/
def wDecline : World :=
  { wSat with stdinLine := "N\n" }

set_option maxRecDepth 10000

/-! Composition lemmas for `StepResult.andThen` and the predicates. -/

theorem andThen_of_ok {r : StepResult} (s : StepResult) (h : r.out = .ok) :
    r.andThen s = { probes := r.probes ++ s.probes, actions := r.actions ++ s.actions,
                    stdout := r.stdout ++ s.stdout, stderr := r.stderr ++ s.stderr,
                    out := s.out } := by
  unfold StepResult.andThen
  rw [h]

theorem andThen_of_nok {r : StepResult} (s : StepResult) (h : r.out ≠ .ok) :
    r.andThen s = r := by
  unfold StepResult.andThen
  cases hr : r.out with
  | ok => exact absurd hr h
  | exited n => rfl
  | panicked => rfl

theorem empty_andThen (r : StepResult) : StepResult.andThen {} r = r := rfl

theorem foldl_frozen (c : Config) (w : World) {r : StepResult} (hr : r.out ≠ .ok) :
    ∀ l : List (Config → World → StepResult),
      l.foldl (fun acc f => acc.andThen (f c w)) r = r
  | [] => rfl
  | f :: rest => by
    rw [List.foldl_cons, andThen_of_nok (f c w) hr]
    exact foldl_frozen c w hr rest

theorem inert_andThen {r s : StepResult} (hr : Inert r) (hs : Inert s) :
    Inert (r.andThen s) := by
  rw [andThen_of_ok s hr.2.2]
  exact ⟨by simp [hr.1, hs.1], by simp [hr.2.1, hs.2.1], hs.2.2⟩

theorem inert_foldl (c : Config) (w : World) :
    ∀ (l : List (Config → World → StepResult)) (acc : StepResult),
      (∀ f ∈ l, Inert (f c w)) → Inert acc →
      Inert (l.foldl (fun r f => r.andThen (f c w)) acc)
  | [], _, _, hacc => hacc
  | f :: rest, acc, hl, hacc =>
    inert_foldl c w rest (acc.andThen (f c w))
      (fun g hg => hl g (List.mem_cons_of_mem f hg))
      (inert_andThen hacc (hl f (List.mem_cons_self f rest)))

theorem good_of_actions_nil {w : World} {r : StepResult} (h : r.actions = []) : Good w r := by
  intro a ha
  rw [h] at ha
  exact absurd ha (List.not_mem_nil a)

theorem good_andThen {w : World} {r s : StepResult} (hr : Good w r) (hs : Good w s) :
    Good w (r.andThen s) := by
  by_cases hok : r.out = .ok
  · rw [andThen_of_ok s hok]
    intro a ha hbe hf
    simp only [List.mem_append] at ha
    rcases ha with h | h
    · exact absurd (hr a h hbe hf) (by rw [hok]; intro hcon; exact Outcome.noConfusion hcon)
    · exact hs a h hbe hf
  · rw [andThen_of_nok s hok]
    exact hr

theorem good_runActs (w : World) : ∀ l : List ActSpec, Good w (runActs w l)
  | [] => good_of_actions_nil rfl
  | s :: rest => by
    unfold runActs
    by_cases h : w.cmdSuccess s.cmd
    · rw [if_pos h]
      refine good_andThen ?_ (good_runActs w rest)
      intro a ha _ hf
      simp only [List.mem_singleton] at ha
      rw [ha] at hf
      rw [h] at hf
      exact Bool.noConfusion hf
    · rw [if_neg h]
      intro _ _ _ _
      rfl

theorem good_foldl (c : Config) (w : World) :
    ∀ (l : List (Config → World → StepResult)) (acc : StepResult),
      (∀ f ∈ l, Good w (f c w)) → Good w acc →
      Good w (l.foldl (fun r f => r.andThen (f c w)) acc)
  | [], _, _, hacc => hacc
  | f :: rest, acc, hl, hacc =>
    good_foldl c w rest (acc.andThen (f c w))
      (fun g hg => hl g (List.mem_cons_of_mem f hg))
      (good_andThen hacc (hl f (List.mem_cons_self f rest)))

theorem hasStow_andThen_left {r s : StepResult} (h : HasStow r) : HasStow (r.andThen s) := by
  intro hok
  by_cases hro : r.out = .ok
  · rw [andThen_of_ok s hro] at hok ⊢
    exact List.mem_append_left _ (h hro)
  · rw [andThen_of_nok s hro] at hok
    exact absurd hok hro

theorem hasStow_andThen_right {r s : StepResult} (h : HasStow s) : HasStow (r.andThen s) := by
  intro hok
  by_cases hro : r.out = .ok
  · rw [andThen_of_ok s hro] at hok ⊢
    exact List.mem_append_right _ (h hok)
  · rw [andThen_of_nok s hro] at hok
    exact absurd hok hro

/-! Per-step dry-run lemmas: with `dry_run = true` every step returns after
printing its plan, performing no probe and no mutating command. -/

theorem check_deps_dry (v : Bool) (w : World) : Inert (check_deps ⟨true, v⟩ w) := by
  unfold check_deps
  simp [Inert, StepResult.andThen]

theorem check_connection_dry (v : Bool) (w : World) : Inert (check_connection ⟨true, v⟩ w) := by
  unfold check_connection
  simp [Inert, StepResult.andThen]

theorem install_paru_dry (v : Bool) (w : World) : Inert (install_paru ⟨true, v⟩ w) := by
  unfold install_paru
  simp [Inert, StepResult.andThen]

theorem setup_chaotic_aur_dry (v : Bool) (w : World) : Inert (setup_chaotic_aur ⟨true, v⟩ w) := by
  unfold setup_chaotic_aur
  simp [Inert, StepResult.andThen]

theorem setup_dotfiles_dry (v : Bool) (w : World) : Inert (setup_dotfiles ⟨true, v⟩ w) := by
  unfold setup_dotfiles
  simp [Inert, StepResult.andThen]

theorem deploy_dotfiles_dry (v : Bool) (w : World) : Inert (deploy_dotfiles ⟨true, v⟩ w) := by
  unfold deploy_dotfiles
  simp [Inert, StepResult.andThen]

theorem stow_custom_configs_dry (v : Bool) (w : World) :
    Inert (stow_custom_configs ⟨true, v⟩ w) := by
  unfold stow_custom_configs
  simp [Inert, StepResult.andThen]

theorem install_nix_dry (v : Bool) (w : World) : Inert (install_nix ⟨true, v⟩ w) := by
  unfold install_nix
  simp [Inert, StepResult.andThen]

theorem setup_home_manager_dry (v : Bool) (w : World) :
    Inert (setup_home_manager ⟨true, v⟩ w) := by
  unfold setup_home_manager
  simp [Inert, StepResult.andThen]

theorem clone_wallpapers_dry (v : Bool) (w : World) : Inert (clone_wallpapers ⟨true, v⟩ w) := by
  unfold clone_wallpapers
  simp [Inert, StepResult.andThen]

theorem rebuild_home_manager_dry (v : Bool) (w : World) :
    Inert (rebuild_home_manager ⟨true, v⟩ w) := by
  unfold rebuild_home_manager
  simp [Inert, StepResult.andThen]

theorem runSteps_dry (v : Bool) (w : World) : Inert (runSteps pipeline ⟨true, v⟩ w) := by
  refine inert_foldl ⟨true, v⟩ w pipeline {} ?_ ⟨rfl, rfl, rfl⟩
  intro f hf
  simp only [pipeline, List.mem_cons, List.not_mem_nil, or_false] at hf
  rcases hf with h | h | h | h | h | h | h | h | h | h <;> subst h
  · exact check_deps_dry v w
  · exact install_paru_dry v w
  · exact setup_chaotic_aur_dry v w
  · exact setup_dotfiles_dry v w
  · exact deploy_dotfiles_dry v w
  · exact install_nix_dry v w
  · exact setup_home_manager_dry v w
  · exact stow_custom_configs_dry v w
  · exact clone_wallpapers_dry v w
  · exact rebuild_home_manager_dry v w

theorem main_dry (w : World) :
    (main ["ass", "--dry-run"] w).actions = [] ∧
    (main ["ass", "--dry-run"] w).probes = [] ∧
    (main ["ass", "--dry-run"] w).exit = some 0 := by
  have h := runSteps_dry false w
  unfold main
  rw [show parse_args ["ass", "--dry-run"] = .done ⟨true, false⟩ from by decide]
  dsimp only
  rw [h.2.2]
  exact ⟨h.2.1, h.1, rfl⟩

/-! Per-step fatal-propagation lemmas: in every step, a failing
non-best-effort command ends the process with `exit(1)`. -/

theorem good_check_deps (c : Config) (w : World) : Good w (check_deps c w) := by
  unfold check_deps
  repeat
    first
    | exact good_of_actions_nil rfl
    | exact good_runActs w _
    | refine good_andThen ?_ ?_
    | split
    | dsimp only

theorem good_install_paru (c : Config) (w : World) : Good w (install_paru c w) := by
  unfold install_paru
  repeat
    first
    | exact good_of_actions_nil rfl
    | exact good_runActs w _
    | refine good_andThen ?_ ?_
    | split
    | dsimp only

theorem good_setup_chaotic_aur (c : Config) (w : World) : Good w (setup_chaotic_aur c w) := by
  unfold setup_chaotic_aur
  repeat
    first
    | exact good_of_actions_nil rfl
    | exact good_runActs w _
    | refine good_andThen ?_ ?_
    | split
    | dsimp only

theorem good_setup_dotfiles (c : Config) (w : World) : Good w (setup_dotfiles c w) := by
  unfold setup_dotfiles
  repeat
    first
    | exact good_of_actions_nil rfl
    | exact good_runActs w _
    | refine good_andThen ?_ ?_
    | split
    | dsimp only

theorem good_deploy_dotfiles (c : Config) (w : World) : Good w (deploy_dotfiles c w) := by
  unfold deploy_dotfiles
  repeat
    first
    | exact good_of_actions_nil rfl
    | exact good_runActs w _
    | refine good_andThen ?_ ?_
    | split
    | dsimp only

theorem good_stow_custom_configs (c : Config) (w : World) :
    Good w (stow_custom_configs c w) := by
  unfold stow_custom_configs
  repeat
    first
    | exact good_of_actions_nil rfl
    | exact good_runActs w _
    | refine good_andThen ?_ ?_
    | split
    | dsimp only

theorem good_install_nix (c : Config) (w : World) : Good w (install_nix c w) := by
  unfold install_nix
  repeat
    first
    | exact good_of_actions_nil rfl
    | exact good_runActs w _
    | refine good_andThen ?_ ?_
    | split
    | dsimp only

theorem good_setup_home_manager (c : Config) (w : World) :
    Good w (setup_home_manager c w) := by
  unfold setup_home_manager
  repeat
    first
    | exact good_of_actions_nil rfl
    | exact good_runActs w _
    | refine good_andThen ?_ ?_
    | split
    | dsimp only

theorem clone_one_bestEffort (c : Config) (w : World) (home repo : String)
    (hrepo : repo ∈ wallpaperRepos) :
    ∀ a ∈ (clone_one c w home repo).actions, bestEffort a = true := by
  intro a ha
  unfold clone_one at ha
  rw [andThen_of_ok _ rfl] at ha
  simp only [List.nil_append] at ha
  revert ha
  split
  · intro ha
    exact absurd ha (List.not_mem_nil a)
  · rw [andThen_of_ok _ rfl]
    simp only [List.nil_append]
    split <;>
    · intro ha
      simp only [List.mem_singleton] at ha
      subst ha
      simp only [bestEffort, wallCloneCmd, beq_self_eq_true, Bool.true_and]
      exact List.any_eq_true.mpr ⟨repo, hrepo, by simp⟩

theorem good_clone_loop (c : Config) (w : World) (home : String) :
    ∀ l : List String, (∀ repo ∈ l, repo ∈ wallpaperRepos) →
      Good w (clone_loop c w home l)
  | [], _ => good_of_actions_nil rfl
  | repo :: rest, hl => by
    unfold clone_loop
    refine good_andThen ?_ (good_clone_loop c w home rest
      (fun x hx => hl x (List.mem_cons_of_mem repo hx)))
    intro a ha hbe _
    rw [clone_one_bestEffort c w home repo (hl repo (List.mem_cons_self repo rest)) a ha] at hbe
    exact Bool.noConfusion hbe

theorem good_clone_wallpapers (c : Config) (w : World) : Good w (clone_wallpapers c w) := by
  unfold clone_wallpapers
  refine good_andThen (good_of_actions_nil rfl) ?_
  split
  · exact good_of_actions_nil rfl
  · split
    · exact good_of_actions_nil rfl
    · exact good_andThen (good_clone_loop c w _ wallpaperRepos (fun _ h => h))
        (good_of_actions_nil rfl)

theorem good_rebuild_home_manager (c : Config) (w : World) :
    Good w (rebuild_home_manager c w) := by
  unfold rebuild_home_manager
  repeat
    first
    | exact good_of_actions_nil rfl
    | exact good_runActs w _
    | refine good_andThen ?_ ?_
    | split
    | dsimp only

theorem good_runSteps (c : Config) (w : World) : Good w (runSteps pipeline c w) := by
  refine good_foldl c w pipeline {} ?_ (good_of_actions_nil rfl)
  intro f hf
  simp only [pipeline, List.mem_cons, List.not_mem_nil, or_false] at hf
  rcases hf with h | h | h | h | h | h | h | h | h | h <;> subst h
  · exact good_check_deps c w
  · exact good_install_paru c w
  · exact good_setup_chaotic_aur c w
  · exact good_setup_dotfiles c w
  · exact good_deploy_dotfiles c w
  · exact good_install_nix c w
  · exact good_setup_home_manager c w
  · exact good_stow_custom_configs c w
  · exact good_clone_wallpapers c w
  · exact good_rebuild_home_manager c w

/-! Behaviour of `main` without flags, of `deploy_dotfiles`, of the clone
loop, of `check_connection`, and of the probed steps when satisfied. -/

theorem main_plain (w : World) :
    (main ["ass"] w).actions = (runSteps pipeline ⟨false, false⟩ w).actions ∧
    ((runSteps pipeline ⟨false, false⟩ w).out = .exited 1 → (main ["ass"] w).exit = some 1) := by
  unfold main
  rw [show parse_args ["ass"] = .done ⟨false, false⟩ from by decide]
  dsimp only
  cases hout : (runSteps pipeline ⟨false, false⟩ w).out with
  | ok =>
    exact ⟨rfl, fun hcon => Outcome.noConfusion hcon⟩
  | exited n =>
    refine ⟨rfl, fun hcon => ?_⟩
    injection hcon with hn
    subst hn
    rfl
  | panicked =>
    exact ⟨rfl, fun hcon => Outcome.noConfusion hcon⟩

theorem hasStow_deploy (v : Bool) (w : World) : HasStow (deploy_dotfiles ⟨false, v⟩ w) := by
  intro hok
  by_cases h1 : w.cmdSuccess stowInstallCmd
  · rcases hh : w.home with _ | home
    · simp [deploy_dotfiles, runActs, StepResult.andThen, h1, hh] at hok
    · by_cases h2 : w.cmdSuccess { program := "mkdir", args := ["-p", home ++ "/.config"] }
      · simp [deploy_dotfiles, runActs, StepResult.andThen, h1, h2, hh]
      · simp [deploy_dotfiles, runActs, StepResult.andThen, h1, h2, hh] at hok
  · simp [deploy_dotfiles, runActs, StepResult.andThen, h1] at hok

theorem runSteps_ok_hasStow (v : Bool) (w : World) :
    HasStow (runSteps pipeline ⟨false, v⟩ w) := by
  simp only [runSteps, pipeline, List.foldl]
  exact hasStow_andThen_left (hasStow_andThen_left (hasStow_andThen_left
    (hasStow_andThen_left (hasStow_andThen_left (hasStow_andThen_right
      (hasStow_deploy v w))))))

theorem clone_loop_spec (c : Config) (w : World) (home : String) :
    ∀ l : List String,
      (clone_loop c w home l).out = .ok ∧
      (clone_loop c w home l).actions =
        (l.filter (fun repo => !w.pathExists (home ++ "/" ++ repoName repo))).map
          (wallCloneCmd home) ∧
      (clone_loop c w home l).stderr =
        (l.filter (fun repo => !w.pathExists (home ++ "/" ++ repoName repo) &&
                               !w.cmdSuccess (wallCloneCmd home repo))).map
          (fun repo => "⚠ Warning: Failed to clone " ++ repo)
  | [] => ⟨rfl, rfl, rfl⟩
  | repo :: rest => by
    have ih := clone_loop_spec c w home rest
    unfold clone_loop clone_one
    by_cases hp : w.pathExists (home ++ "/" ++ repoName repo)
    · simp [StepResult.andThen, hp, ih.1, ih.2.1, ih.2.2, List.filter_cons]
    · by_cases hc : w.cmdSuccess (wallCloneCmd home repo)
      · simp [StepResult.andThen, hp, hc, ih.1, ih.2.1, ih.2.2, List.filter_cons]
      · simp [StepResult.andThen, hp, hc, ih.1, ih.2.1, ih.2.2, List.filter_cons]

theorem clone_wallpapers_spec (v : Bool) (w : World) (home : String)
    (hh : w.home = some home) :
    (clone_wallpapers ⟨false, v⟩ w).out = .ok ∧
    (clone_wallpapers ⟨false, v⟩ w).actions =
      (wallpaperRepos.filter (fun repo => !w.pathExists (home ++ "/" ++ repoName repo))).map
        (wallCloneCmd home) ∧
    (clone_wallpapers ⟨false, v⟩ w).stderr =
      (wallpaperRepos.filter (fun repo => !w.pathExists (home ++ "/" ++ repoName repo) &&
                                          !w.cmdSuccess (wallCloneCmd home repo))).map
        (fun repo => "⚠ Warning: Failed to clone " ++ repo) := by
  have h := clone_loop_spec ⟨false, v⟩ w home wallpaperRepos
  unfold clone_wallpapers
  rw [hh]
  simp [StepResult.andThen, h.1, h.2.1, h.2.2]

theorem check_connection_out (v : Bool) (w : World) :
    ((check_connection ⟨false, v⟩ w).out = .exited 0 ↔
      (rustToLower (rustTrim w.stdinLine) = "n" ∨ rustToLower (rustTrim w.stdinLine) = "no")) ∧
    ((check_connection ⟨false, v⟩ w).out = .ok ↔
      ¬(rustToLower (rustTrim w.stdinLine) = "n" ∨ rustToLower (rustTrim w.stdinLine) = "no")) := by
  by_cases h : rustToLower (rustTrim w.stdinLine) = "n" ∨ rustToLower (rustTrim w.stdinLine) = "no" <;>
    simp [check_connection, StepResult.andThen, h]

theorem install_paru_satisfied (d v : Bool) (w : World)
    (h : (w.whichOut ("paru")).isEmpty = false) :
    (install_paru ⟨d, v⟩ w).actions = [] ∧ (install_paru ⟨d, v⟩ w).out = .ok := by
  cases d <;> simp [install_paru, StepResult.andThen, h]

theorem install_nix_satisfied (d v : Bool) (w : World)
    (h : (w.whichOut ("nix")).isEmpty = false) :
    (install_nix ⟨d, v⟩ w).actions = [] ∧ (install_nix ⟨d, v⟩ w).out = .ok := by
  cases d <;> simp [install_nix, StepResult.andThen, h]

theorem setup_chaotic_aur_satisfied (d v : Bool) (w : World)
    (h : strContains ((w.fileContents ("/etc/pacman.conf")).getD "") "[chaotic-aur]" = true) :
    (setup_chaotic_aur ⟨d, v⟩ w).actions = [] ∧ (setup_chaotic_aur ⟨d, v⟩ w).out = .ok := by
  cases d <;> simp [setup_chaotic_aur, StepResult.andThen, h]

theorem check_deps_satisfied (d v : Bool) (w : World)
    (hg : (w.whichOut ("git")).isEmpty = false)
    (hc : (w.whichOut ("curl")).isEmpty = false)
    (hs : (w.whichOut ("sudo")).isEmpty = false)
    (hy : (w.whichOut ("systemctl")).isEmpty = false) :
    (check_deps ⟨d, v⟩ w).actions = [] ∧ (check_deps ⟨d, v⟩ w).out = .ok := by
  cases d <;> simp [check_deps, StepResult.andThen, hg, hc, hs, hy]

theorem check_deps_no_sudo (v : Bool) (w : World)
    (h : (w.whichOut ("sudo")).isEmpty = true) :
    (check_deps ⟨false, v⟩ w).out = .exited 1 ∧ (check_deps ⟨false, v⟩ w).actions = [] := by
  simp [check_deps, StepResult.andThen, h]

theorem check_deps_no_systemctl (v : Bool) (w : World)
    (hs : (w.whichOut ("sudo")).isEmpty = false)
    (h : (w.whichOut ("systemctl")).isEmpty = true) :
    (check_deps ⟨false, v⟩ w).out = .exited 1 ∧ (check_deps ⟨false, v⟩ w).actions = [] := by
  simp [check_deps, StepResult.andThen, hs, h]

theorem check_deps_missing_git (v : Bool) (w : World)
    (hg : (w.whichOut ("git")).isEmpty = true)
    (hc : (w.whichOut ("curl")).isEmpty = false)
    (hs : (w.whichOut ("sudo")).isEmpty = false)
    (hy : (w.whichOut ("systemctl")).isEmpty = false)
    (hcmd : w.cmdSuccess { program := "sudo", args := ["pacman", "-S", "--noconfirm", "git"] } = true) :
    (check_deps ⟨false, v⟩ w).out = .ok ∧
    (check_deps ⟨false, v⟩ w).actions =
      [{ program := "sudo", args := ["pacman", "-S", "--noconfirm", "git"] }] := by
  simp [check_deps, runActs, StepResult.andThen, hg, hc, hs, hy, hcmd]

theorem check_deps_install (v : Bool) (w : World)
    (hs : (w.whichOut ("sudo")).isEmpty = false)
    (hy : (w.whichOut ("systemctl")).isEmpty = false)
    (hm : missingDeps w ≠ []) :
    (check_deps ⟨false, v⟩ w).actions = [depsInstallCmd w] ∧
    (w.cmdSuccess (depsInstallCmd w) = true → (check_deps ⟨false, v⟩ w).out = .ok) ∧
    (w.cmdSuccess (depsInstallCmd w) = false → (check_deps ⟨false, v⟩ w).out = .exited 1) := by
  by_cases hg : (w.whichOut ("git")).isEmpty <;>
    by_cases hc : (w.whichOut ("curl")).isEmpty <;>
    [skip; skip; skip;
     exact absurd (by simp [missingDeps, hg, hc]) hm] <;>
  by_cases hcmd : w.cmdSuccess (depsInstallCmd w) <;>
    simp_all [check_deps, runActs, StepResult.andThen, missingDeps, depsInstallCmd]

/-! The claims. -/

/-- C1 counterexample: in the fully provisioned world `wSat` a pipeline run
fully succeeds (exit code 0), and the identical rerun against the very same
starting state still executes mutating commands — it is not the case that
every step short-circuits with zero additional mutating Actions. -/
theorem C1_counterexample :
    (main ["ass"] wSat).exit = some 0 ∧ (main ["ass"] wSat).actions ≠ [] := by
  constructor
  · decide
  · decide

/-- C1 (amended): rerunning the pipeline against the state a fully
successful run leaves behind short-circuits only the probed steps
(`check_deps`, `install_paru`, `setup_chaotic_aur`, the clone phase of
`setup_dotfiles`, `install_nix`, `clone_wallpapers`); `deploy_dotfiles`,
`setup_home_manager`, `stow_custom_configs`, `rebuild_home_manager` and the
package-install phase of `setup_dotfiles` have no Satisfied path and execute
their mutating commands again — indeed every successful non-dry run executes
the unconditional stow installation, so a second run is never free of
mutating calls.  In `wSat` the rerun succeeds with exactly the twelve listed
mutating commands, none of which belongs to a probed step. -/
theorem C1_amended :
    (∀ (v : Bool) (w : World), (runSteps pipeline ⟨false, v⟩ w).out = .ok →
      stowInstallCmd ∈ (runSteps pipeline ⟨false, v⟩ w).actions) ∧
    (main ["ass"] wSat).exit = some 0 ∧
    (main ["ass"] wSat).actions =
      [paruInstallCmd ("/home/u/dotfiles") ["git", "vim"],
       stowInstallCmd,
       { program := "mkdir", args := ["-p", "/home/u/.config"] },
       { program := "sudo", args := ["systemctl", "enable", "--now", "nix-daemon.service"] },
       { program := "nix-channel",
         args := ["--add", "https://github.com/nix-community/home-manager/archive/master.tar.gz",
                  "home-manager"] },
       { program := "nix-channel", args := ["--update"] },
       { program := "nix-shell", args := ["<home-manager>", "-A", "install"] },
       { program := "rm", args := ["-rf", "/home/u/.config/home-manager"] },
       { program := "rm", args := ["-rf", "/home/u/.config/nix"] },
       { program := "stow", args := ["home-manager"], cwd := some ("/home/u/dotfiles") },
       { program := "stow", args := ["nix"], cwd := some ("/home/u/dotfiles") },
       { program := "home-manager", args := ["switch", "-b", "backup"] }] :=
  ⟨fun v w => runSteps_ok_hasStow v w, by decide, by decide⟩

/-- C1 witness: the amended theorem applied in the fully provisioned world,
where the run indeed succeeds and contains the stow installation. -/
theorem C1_amended_witness :
    (runSteps pipeline ⟨false, false⟩ wSat).out = .ok ∧
    stowInstallCmd ∈ (runSteps pipeline ⟨false, false⟩ wSat).actions :=
  ⟨by decide, C1_amended.1 false wSat (by decide)⟩

/-- C2 counterexample: in `wSat` the `setup_dotfiles` probe is Satisfied
(the `~/dotfiles` directory exists), yet the step still executes the
mutating `paru -S` package installation — refuting the claim for every
step. -/
theorem C2_counterexample :
    wSat.pathExists ("/home/u/dotfiles") = true ∧
    (setup_dotfiles ⟨false, false⟩ wSat).out = .ok ∧
    (setup_dotfiles ⟨false, false⟩ wSat).actions =
      [paruInstallCmd ("/home/u/dotfiles") ["git", "vim"]] := by
  refine ⟨by decide, by decide, by decide⟩

/-- C2 (amended): for `install_paru`, `install_nix`, `setup_chaotic_aur` and
`check_deps`, a Satisfied probe means the step completes successfully with
zero mutating Runner invocations, regardless of `dry_run`; `setup_dotfiles`
is the exception — even with its dotfiles-directory probe Satisfied it still
executes its package-install Action. -/
theorem C2_amended (d v : Bool) (w : World) :
    ((w.whichOut ("paru")).isEmpty = false →
      (install_paru ⟨d, v⟩ w).actions = [] ∧ (install_paru ⟨d, v⟩ w).out = .ok) ∧
    ((w.whichOut ("nix")).isEmpty = false →
      (install_nix ⟨d, v⟩ w).actions = [] ∧ (install_nix ⟨d, v⟩ w).out = .ok) ∧
    (strContains ((w.fileContents ("/etc/pacman.conf")).getD "") "[chaotic-aur]" = true →
      (setup_chaotic_aur ⟨d, v⟩ w).actions = [] ∧ (setup_chaotic_aur ⟨d, v⟩ w).out = .ok) ∧
    ((w.whichOut ("git")).isEmpty = false → (w.whichOut ("curl")).isEmpty = false →
     (w.whichOut ("sudo")).isEmpty = false → (w.whichOut ("systemctl")).isEmpty = false →
      (check_deps ⟨d, v⟩ w).actions = [] ∧ (check_deps ⟨d, v⟩ w).out = .ok) ∧
    (setup_dotfiles ⟨false, false⟩ wSat).actions =
      [paruInstallCmd ("/home/u/dotfiles") ["git", "vim"]] :=
  ⟨install_paru_satisfied d v w, install_nix_satisfied d v w,
   setup_chaotic_aur_satisfied d v w, check_deps_satisfied d v w, by decide⟩

/-- C2 witness: the amended theorem applied in the fully provisioned world,
where all four probed steps skip with zero mutating invocations. -/
theorem C2_amended_witness :
    ((install_paru ⟨false, false⟩ wSat).actions = [] ∧
     (install_paru ⟨false, false⟩ wSat).out = .ok) ∧
    ((install_nix ⟨false, false⟩ wSat).actions = [] ∧
     (install_nix ⟨false, false⟩ wSat).out = .ok) ∧
    ((setup_chaotic_aur ⟨false, false⟩ wSat).actions = [] ∧
     (setup_chaotic_aur ⟨false, false⟩ wSat).out = .ok) ∧
    ((check_deps ⟨false, false⟩ wSat).actions = [] ∧
     (check_deps ⟨false, false⟩ wSat).out = .ok) := by
  have h := C2_amended false false wSat
  exact ⟨h.1 (by decide), h.2.1 (by decide), h.2.2.1 (by decide),
         h.2.2.2.1 (by decide) (by decide) (by decide) (by decide)⟩

/-- C3 counterexample: in the fully provisioned world (paru present on
PATH), running `install_paru` with `dry_run = true` performs no probe at all
and prints the full action plan rather than the skip notice — so the dry-run
short-circuit happens before probing, not after it. -/
theorem C3_counterexample :
    (wSat.whichOut ("paru")).isEmpty = false ∧
    (install_paru ⟨true, false⟩ wSat).probes = [] ∧
    (install_paru ⟨true, false⟩ wSat).stdout =
      ["Installing paru...",
       "[DRY RUN] Would check if paru is installed, if not:",
       "  1. git clone https://aur.archlinux.org/paru.git",
       "  2. sudo pacman -Syyu --noconfirm rustup bat devtools",
       "  3. rustup default stable",
       "  4. cd paru && makepkg -si --noconfirm"] ∧
    "✓ Paru already installed, skipping installation" ∉ (install_paru ⟨true, false⟩ wSat).stdout := by
  refine ⟨by decide, by decide, by decide, by decide⟩

/-- C3 (amended): in every step the dry-run short-circuit happens before
probing: with `dry_run = true` the whole pipeline (and the uninvoked
`check_connection`) performs zero probes, and an already-satisfied step
still prints its action plan, not a skip notice. -/
theorem C3_amended (v : Bool) (w : World) :
    (runSteps pipeline ⟨true, v⟩ w).probes = [] ∧
    (check_connection ⟨true, v⟩ w).probes = [] ∧
    (install_paru ⟨true, false⟩ wSat).stdout =
      ["Installing paru...",
       "[DRY RUN] Would check if paru is installed, if not:",
       "  1. git clone https://aur.archlinux.org/paru.git",
       "  2. sudo pacman -Syyu --noconfirm rustup bat devtools",
       "  3. rustup default stable",
       "  4. cd paru && makepkg -si --noconfirm"] :=
  ⟨(runSteps_dry v w).1, (check_connection_dry v w).1, by decide⟩

/-- C4: with `dry_run = true` every step of the pipeline executes zero
mutating Actions and returns normally, for every world and verbosity — no
probe can error because no probe even runs — and the whole process invoked
with `--dry-run` executes zero mutating Actions and exits 0. -/
theorem C4_dry_run_inert (v : Bool) (w : World) :
    (runSteps pipeline ⟨true, v⟩ w).actions = [] ∧
    (runSteps pipeline ⟨true, v⟩ w).out = .ok ∧
    (main ["ass", "--dry-run"] w).actions = [] ∧
    (main ["ass", "--dry-run"] w).exit = some 0 :=
  ⟨(runSteps_dry v w).2.1, (runSteps_dry v w).2.2, (main_dry w).1, (main_dry w).2.2⟩

/-- C5: the wallpaper-clone step is best-effort: in every world with a home
directory it returns success, it attempts a clone for exactly the
repositories whose target directory is missing (independently of any clone
failures), and it logs one warning per failed clone. -/
theorem C5_best_effort_isolation (v : Bool) (w : World) (home : String)
    (hh : w.home = some home) :
    (clone_wallpapers ⟨false, v⟩ w).out = .ok ∧
    (clone_wallpapers ⟨false, v⟩ w).actions =
      (wallpaperRepos.filter (fun repo => !w.pathExists (home ++ "/" ++ repoName repo))).map
        (wallCloneCmd home) ∧
    (clone_wallpapers ⟨false, v⟩ w).stderr =
      (wallpaperRepos.filter (fun repo => !w.pathExists (home ++ "/" ++ repoName repo) &&
                                          !w.cmdSuccess (wallCloneCmd home repo))).map
        (fun repo => "⚠ Warning: Failed to clone " ++ repo) :=
  clone_wallpapers_spec v w home hh

/-- C5 witness: in a world where the third of the sixteen clones fails, all
sixteen are still attempted, exactly one warning is logged, and the step
reports success. -/
theorem C5_witness :
    (clone_wallpapers ⟨false, false⟩ wCloneFail).out = .ok ∧
    (clone_wallpapers ⟨false, false⟩ wCloneFail).actions =
      wallpaperRepos.map (wallCloneCmd "/h") ∧
    (clone_wallpapers ⟨false, false⟩ wCloneFail).stderr =
      ["⚠ Warning: Failed to clone https://github.com/wallace-aph/tiles-and-such"] := by
  have h := C5_best_effort_isolation false wCloneFail "/h" rfl
  refine ⟨h.1, ?_, ?_⟩
  · rw [h.2.1]
    decide
  · rw [h.2.2]
    decide

/-- C6: fatal propagation — in every non-dry run, if any executed
non-best-effort command (any command other than a wallpaper clone) exits
unsuccessfully, the pipeline ends with `exit(1)` at that step (the fold
never reaches a later step once a step fails), and the process run without
flags reports exit code 1. -/
theorem C6_fatal_propagation (v : Bool) (w : World) :
    (∀ a ∈ (runSteps pipeline ⟨false, v⟩ w).actions, bestEffort a = false →
      w.cmdSuccess a = false → (runSteps pipeline ⟨false, v⟩ w).out = .exited 1) ∧
    (∀ a ∈ (main ["ass"] w).actions, bestEffort a = false →
      w.cmdSuccess a = false → (main ["ass"] w).exit = some 1) := by
  refine ⟨fun a ha hbe hf => good_runSteps ⟨false, v⟩ w a ha hbe hf, ?_⟩
  intro a ha hbe hf
  have hm := main_plain w
  rw [hm.1] at ha
  exact hm.2 (good_runSteps ⟨false, false⟩ w a ha hbe hf)

/-- C6 witness: in the world where the unconditional stow installation
fails, that command is executed, is not best-effort, fails, and the pipeline
terminates with exit code 1. -/
theorem C6_witness :
    stowInstallCmd ∈ (runSteps pipeline ⟨false, false⟩ wStowFail).actions ∧
    bestEffort stowInstallCmd = false ∧
    wStowFail.cmdSuccess stowInstallCmd = false ∧
    (runSteps pipeline ⟨false, false⟩ wStowFail).out = .exited 1 ∧
    (main ["ass"] wStowFail).exit = some 1 := by
  refine ⟨by decide, by decide, by decide, ?_, ?_⟩
  · exact (C6_fatal_propagation false wStowFail).1 stowInstallCmd (by decide) (by decide) (by decide)
  · exact (C6_fatal_propagation false wStowFail).2 stowInstallCmd (by decide) (by decide) (by decide)

/-- C7 counterexample: with git missing from PATH (curl, sudo and systemctl
present, the install succeeding), `check_deps` does not abort at all: it
installs git via `sudo pacman -S --noconfirm git` and returns success — so a
missing required tool is not a fatal immediate abort for every tool
checked. -/
theorem C7_counterexample :
    (wGitMissing.whichOut ("git")).isEmpty = true ∧
    (check_deps ⟨false, false⟩ wGitMissing).out = .ok ∧
    (check_deps ⟨false, false⟩ wGitMissing).actions =
      [{ program := "sudo", args := ["pacman", "-S", "--noconfirm", "git"] }] := by
  refine ⟨by decide, by decide, by decide⟩

/-- C7 (amended): in `check_deps` only missing sudo or missing systemctl
cause a fatal immediate abort (`exit(1)` with no mutating command); a
missing git or curl (or both) is instead collected into `missing_deps` and
installed through the single `sudo pacman -S --noconfirm <missing_deps>`
command, the step succeeding when that installation succeeds and aborting
with `exit(1)` only when it fails. -/
theorem C7_amended (v : Bool) (w : World) :
    ((w.whichOut ("sudo")).isEmpty = true →
      (check_deps ⟨false, v⟩ w).out = .exited 1 ∧ (check_deps ⟨false, v⟩ w).actions = []) ∧
    ((w.whichOut ("sudo")).isEmpty = false → (w.whichOut ("systemctl")).isEmpty = true →
      (check_deps ⟨false, v⟩ w).out = .exited 1 ∧ (check_deps ⟨false, v⟩ w).actions = []) ∧
    ((w.whichOut ("sudo")).isEmpty = false → (w.whichOut ("systemctl")).isEmpty = false →
     missingDeps w ≠ [] →
      (check_deps ⟨false, v⟩ w).actions = [depsInstallCmd w] ∧
      (w.cmdSuccess (depsInstallCmd w) = true → (check_deps ⟨false, v⟩ w).out = .ok) ∧
      (w.cmdSuccess (depsInstallCmd w) = false →
        (check_deps ⟨false, v⟩ w).out = .exited 1)) :=
  ⟨check_deps_no_sudo v w, check_deps_no_systemctl v w, check_deps_install v w⟩

/-- C7 witness: the amended theorem applied in five concrete worlds —
missing sudo aborts, missing systemctl aborts, missing git auto-installs
git, missing curl auto-installs curl, and a failing installation exits 1. -/
theorem C7_amended_witness :
    (check_deps ⟨false, false⟩ wNoSudo).out = .exited 1 ∧
    (check_deps ⟨false, false⟩ wNoSystemd).out = .exited 1 ∧
    ((check_deps ⟨false, false⟩ wGitMissing).out = .ok ∧
     (check_deps ⟨false, false⟩ wGitMissing).actions =
       [{ program := "sudo", args := ["pacman", "-S", "--noconfirm", "git"] }]) ∧
    ((check_deps ⟨false, false⟩ wCurlMissing).out = .ok ∧
     (check_deps ⟨false, false⟩ wCurlMissing).actions =
       [{ program := "sudo", args := ["pacman", "-S", "--noconfirm", "curl"] }]) ∧
    (check_deps ⟨false, false⟩ wDepsFail).out = .exited 1 := by
  have h1 := (C7_amended false wNoSudo).1 (by decide)
  have h2 := (C7_amended false wNoSystemd).2.1 (by decide) (by decide)
  have h3 := (C7_amended false wGitMissing).2.2 (by decide) (by decide) (by decide)
  have h4 := (C7_amended false wCurlMissing).2.2 (by decide) (by decide) (by decide)
  have h5 := (C7_amended false wDepsFail).2.2 (by decide) (by decide) (by decide)
  refine ⟨h1.1, h2.1, ⟨h3.2.1 (by decide), ?_⟩, ⟨h4.2.1 (by decide), ?_⟩,
          h5.2.2 (by decide)⟩
  · rw [h3.1]
    decide
  · rw [h4.1]
    decide

/-- C8: invoking the program with an unrecognized flag `--bogus` prints
exactly the two error lines (naming the unknown option) to the error stream
and exits with code 1 having executed no probe and no mutating Action, in
every world. -/
theorem C8_unknown_flag (w : World) :
    main ["ass", "--bogus"] w =
      { probes := [], actions := [], stdout := [],
        stderr := ["Unknown option: --bogus", "Use --help for usage information"],
        exit := some 1 } := rfl

/-- C9: when the answer at the connectivity prompt trims and lowercases to
"n" or "no", `check_connection` ends the process with `exit(0)` — a
voluntary, zero-exit-code abort — and any steps sequenced after it never
run (the pipeline result is exactly the prompt step's result).  The source
defines `check_connection` but `main` never invokes it, so the prompt is
unreachable in the shipped pipeline; the property holds of the step
itself. -/
theorem C9_user_decline (v : Bool) (w : World)
    (rest : List (Config → World → StepResult))
    (h : rustToLower (rustTrim w.stdinLine) = "n" ∨ rustToLower (rustTrim w.stdinLine) = "no") :
    (check_connection ⟨false, v⟩ w).out = .exited 0 ∧
    runSteps (check_connection :: rest) ⟨false, v⟩ w = check_connection ⟨false, v⟩ w := by
  have hout : (check_connection ⟨false, v⟩ w).out = .exited 0 :=
    (check_connection_out v w).1.mpr h
  refine ⟨hout, ?_⟩
  unfold runSteps
  rw [List.foldl_cons, empty_andThen]
  exact foldl_frozen ⟨false, v⟩ w (by rw [hout]; decide) rest

/-- C9 witness: typing `N` at the prompt exits 0 and skips a subsequent
step. -/
theorem C9_witness :
    (check_connection ⟨false, false⟩ wDecline).out = .exited 0 ∧
    runSteps (check_connection :: [rebuild_home_manager]) ⟨false, false⟩ wDecline =
      check_connection ⟨false, false⟩ wDecline :=
  C9_user_decline false wDecline [rebuild_home_manager] (Or.inl (by decide))

/-- C10: at the connectivity prompt, the step declines (exits 0) exactly
when the trimmed, lowercased input is "n" or "no", and returns normally
(continuing the pipeline) exactly otherwise; in particular the empty input
of `wSat` is treated as consent. -/
theorem C10_decline_only_n_no (v : Bool) (w : World) :
    ((check_connection ⟨false, v⟩ w).out = .exited 0 ↔
      (rustToLower (rustTrim w.stdinLine) = "n" ∨ rustToLower (rustTrim w.stdinLine) = "no")) ∧
    ((check_connection ⟨false, v⟩ w).out = .ok ↔
      ¬(rustToLower (rustTrim w.stdinLine) = "n" ∨ rustToLower (rustTrim w.stdinLine) = "no")) ∧
    (check_connection ⟨false, false⟩ wSat).out = .ok :=
  ⟨(check_connection_out v w).1, (check_connection_out v w).2, by decide⟩

end ASS
